import Mathlib

/-!
Shallow embedding of the `page-primer` crate (`src/linux.rs`, `src/lib.rs`).

Machine integers (`usize`, ELF words, errno values) are embedded as `Nat`.
`addr & !mask` is embedded as `and_not addr mask = addr - (addr &&& mask)`,
which agrees with the bitwise formula for every width since
`(addr &&& mask) + (addr &&& !mask) = addr`.

Effectful libc calls (`mmap`, `memfd_create`, `ftruncate`, `mlock`,
`dl_iterate_phdr`, file reads) are embedded by an oracle environment `Env`
that fixes each call's outcome, plus an explicit event trace recording which
calls were made.  Panics (`assert!`, `expect`) are embedded as `Option.none`.
-/

namespace PagePrimer

/-- ELF `PF_X` flag bit (libc value 1). -/
def PF_X : Nat := 1

/-- ELF `PF_W` flag bit (libc value 2). -/
def PF_W : Nat := 2

/-- ELF `PF_R` flag bit (libc value 4). -/
def PF_R : Nat := 4

/-- ELF `PT_LOAD` program-header type (libc value 1). -/
def PT_LOAD : Nat := 1

/-- Linux `PATH_MAX` (4096). -/
def PATH_MAX : Nat := 4096

/-- Constant `PROT_READ` (libc value 1). -/
def PROT_READ : Nat := 1

/-- Constant `PROT_WRITE` (libc value 2). -/
def PROT_WRITE : Nat := 2

/-- Constant `PROT_EXEC` (libc value 4). -/
def PROT_EXEC : Nat := 4

/-- Rust `usize::is_power_of_two` (count_ones() == 1). -/
def is_power_of_two (n : Nat) : Bool := n != 0 && (n &&& (n - 1)) == 0

/-- Function `fn mask(page_size: usize) -> usize` from `linux.rs`.
The `assert!(page_size.is_power_of_two() || page_size > 1)` panic is embedded
as `none`; note the source really uses `||`, not `&&`. -/
def mask (page_size : Nat) : Option Nat :=
  if is_power_of_two page_size || page_size > 1 then some (page_size - 1) else none

/-- Expression `addr & !mask` on `usize`, embedded width-independently. -/
def and_not (addr m : Nat) : Nat := addr - (addr &&& m)

/-- Function `fn round_up(addr: usize, mask: usize) -> usize` from `linux.rs`. -/
def round_up (addr m : Nat) : Nat :=
  if (addr &&& m) != 0 then and_not addr m + m + 1 else addr

/-- Function `fn debug_prot(p_flags: ElfWord) -> String` from `linux.rs`.
All three tests really read `PF_R` in the source. -/
def debug_prot (p_flags : Nat) : String :=
  let r := if (p_flags &&& PF_R) != 0 then "r" else "-"
  let w := if (p_flags &&& PF_R) != 0 then "w" else "-"
  let x := if (p_flags &&& PF_R) != 0 then "x" else "-"
  r ++ w ++ x

/-- Function `fn transform_prot(p_flags: ElfWord) -> c_int` from `linux.rs`. -/
def transform_prot (p_flags : Nat) : Nat :=
  let out : Nat := 0
  let out := if (p_flags &&& PF_R) != 0 then out ||| PROT_READ else out
  let out := if (p_flags &&& PF_W) != 0 then out ||| PROT_WRITE else out
  let out := if (p_flags &&& PF_X) != 0 then out ||| PROT_EXEC else out
  out

/-- Type `enum HugeError` from `linux.rs`. -/
inductive HugeError where
  | Unreadable
  | Conflict
  | Writable
  | MemfdCreateFailed (e : Nat)
  | FtruncateFailed (e : Nat)
  | InitialMmapFailed (e : Nat)
  | RemapFailed (e : Nat)
deriving DecidableEq, Repr

/-- One observable libc call made by the primer (the event trace of the
embedding; an empty trace means no mmap/memfd/mlock/enumeration call). -/
inductive Event where
  /-- The `mmap(PROT_NONE, MAP_FIXED_NOREPLACE)` call of `Reservation::new`
  for `[start, stop)`, with its outcome. -/
  | reserve (start stop : Nat) (ok : Bool)
  /-- Call `memfd_create` inside `replace`. -/
  | memfdCreate
  /-- Call `ftruncate` inside `replace`. -/
  | ftruncateCall
  /-- The temporary `mmap(MAP_SHARED)` inside `replace`. -/
  | mmapTmp
  /-- The `memcpy` inside `replace`; arguments are the copied source range. -/
  | memcpyCall (start stop : Nat)
  /-- Call `munmap` of the temporary mapping inside `replace`. -/
  | munmapTmp
  /-- The final `mmap(MAP_PRIVATE | MAP_FIXED)` inside `replace`. -/
  | mmapFixed (start stop prot : Nat)
  /-- Call `close(fd)` inside `replace`. -/
  | closeFd
  /-- Call `munmap` run by the `Drop` impl of `Reservation` for `[start, stop)`. -/
  | munmapRange (start stop : Nat)
  /-- An `mlock` call on `[start, stop)`. -/
  | mlockCall (start stop : Nat)
  /-- The `dl_iterate_phdr` call in `run`. -/
  | iteratePhdr
deriving DecidableEq, Repr

instance {ε α : Type} [DecidableEq ε] [DecidableEq α] : DecidableEq (Except ε α) := fun a b =>
  match a, b with
  | .error x, .error y => decidable_of_iff (x = y) (by simp)
  | .error _, .ok _ => isFalse (by simp)
  | .ok _, .error _ => isFalse (by simp)
  | .ok x, .ok y => decidable_of_iff (x = y) (by simp)

/-- Type `struct Segment` from `linux.rs` (fields `remap`/`mlock` are embedded as
`remap_result`/`mlock_result` to leave the method name `Segment.remap` free). -/
structure Segment where
  object_i : Nat
  flags : Nat
  /-- Half-open virtual address range `[addrs.1, addrs.2)`. -/
  addrs : Nat × Nat
  remap_result : Option (Except HugeError (Nat × Nat))
  /-- Field of type `Option<Result<(), c_int>>`; `.error e` carries the errno. -/
  mlock_result : Option (Except Nat Unit)
  /-- The `[u8; PATH_MAX]` array, as a list of byte values. -/
  path : List Nat
deriving DecidableEq, Repr

/-- One ELF program header, as read through `dl_phdr_info`. -/
structure Phdr where
  p_type : Nat
  p_flags : Nat
  p_vaddr : Nat
  p_memsz : Nat
deriving DecidableEq, Repr

/-- One `dl_phdr_info` record. -/
structure PhdrInfo where
  dlpi_addr : Nat
  /-- Name `dlpi_name`, as bytes. -/
  dlpi_name : List Nat
  dlpi_phdr : List Phdr
deriving DecidableEq, Repr

/-- Oracle environment fixing the outcome of every OS interaction. -/
structure Env where
  /-- Whether `Reservation::new` on `[start, stop)` succeeds. -/
  reserveOk : Nat → Nat → Bool
  /-- errno of a failing `memfd_create` in `replace` for a given map range. -/
  memfdErr : Nat × Nat → Option Nat
  /-- errno of a failing `ftruncate` in `replace`. -/
  ftruncateErr : Nat × Nat → Option Nat
  /-- errno of a failing temporary `mmap` in `replace`. -/
  initialMmapErr : Nat × Nat → Option Nat
  /-- errno of a failing final `mmap` in `replace`. -/
  finalMmapErr : Nat × Nat → Option Nat
  /-- errno of a failing `mlock` on `[start, stop)`. -/
  mlockErr : Nat → Nat → Option Nat
  /-- Outcome of `std::fs::read("/proc/self/maps")` (lossy-decoded), keyed by
  the `when` argument of `log_maps`. -/
  maps : String → Except String String
  /-- Result of `num_threads::num_threads()` (`NonZeroUsize` embedded as `Nat`). -/
  numThreads : Option Nat
  /-- Outcome of `huge_page_size()`: io error message, or the optional size. -/
  hugePageSize : Except String (Option Nat)
  /-- Result of `sysconf(_SC_PAGESIZE)`. -/
  base_page_size : Nat
  /-- Result of `program_name()` as bytes. -/
  program_name : List Nat
  /-- The objects `dl_iterate_phdr` reports, in order. -/
  phdrInfos : List PhdrInfo
  /-- Display of `Error::from_raw_os_error(e)`. -/
  osError : Nat → String
  /-- Effect of `to_string_lossy` on a byte list. -/
  lossy : List Nat → String

/-- Type `struct Context` from `linux.rs`; `capacity` embeds the segment `Vec`'s
fixed allocation (`Vec::with_capacity(1024)` in `run`). -/
structure Context where
  mlock : Bool
  base_page_mask : Nat
  huge_page_mask : Option Nat
  next_object_i : Nat
  program_name : List Nat
  segments : List Segment
  capacity : Nat

/-- The base-page-aligned closure of a segment's address range
(`page_range` in `Segment::remap`). -/
def page_range (base_page_mask : Nat) (addrs : Nat × Nat) : Nat × Nat :=
  (and_not addrs.1 base_page_mask, round_up addrs.2 base_page_mask)

/-- The huge-page-aligned closure (`hugepage_outer_range` in `Segment::remap`). -/
def hugepage_outer_range (huge_page_mask : Nat) (addrs : Nat × Nat) : Nat × Nat :=
  (and_not addrs.1 huge_page_mask, round_up addrs.2 huge_page_mask)

/-- The largest huge-page-aligned range inside the page range
(`hugepage_inner_range` in `Segment::remap`). -/
def hugepage_inner_range (huge_page_mask : Nat) (pr : Nat × Nat) : Nat × Nat :=
  (round_up pr.1 huge_page_mask, and_not pr.2 huge_page_mask)

/-- Function `unsafe fn replace` from `linux.rs`: result plus the trace of libc calls.
`map` is the range being replaced, `copy` the byte range copied into it. -/
def replace (env : Env) (map copy : Nat × Nat) (flags : Nat) :
    Except HugeError Unit × List Event :=
  match env.memfdErr map with
  | some e => (.error (.MemfdCreateFailed e), [.memfdCreate])
  | none =>
    match env.ftruncateErr map with
    | some e => (.error (.FtruncateFailed e), [.memfdCreate, .ftruncateCall, .closeFd])
    | none =>
      match env.initialMmapErr map with
      | some e =>
        (.error (.InitialMmapFailed e), [.memfdCreate, .ftruncateCall, .mmapTmp, .closeFd])
      | none =>
        match env.finalMmapErr map with
        | some e =>
          (.error (.RemapFailed e),
            [.memfdCreate, .ftruncateCall, .mmapTmp, .memcpyCall copy.1 copy.2, .munmapTmp,
              .mmapFixed map.1 map.2 (transform_prot flags), .closeFd])
        | none =>
          (.ok (),
            [.memfdCreate, .ftruncateCall, .mmapTmp, .memcpyCall copy.1 copy.2, .munmapTmp,
              .mmapFixed map.1 map.2 (transform_prot flags), .closeFd])

/-- Method `Segment::remap` from `linux.rs`: result plus the trace of libc calls.
Reservation attempts, the `Conflict` check, the `copy` sub-range and the
drop/forget behavior of the two reservations follow the source. -/
def Segment.remap (env : Env) (base_page_mask huge_page_mask : Nat) (s : Segment) :
    Except HugeError (Nat × Nat) × List Event :=
  if s.flags &&& PF_R = 0 then (.error .Unreadable, [])
  else if s.flags &&& PF_W ≠ 0 then (.error .Writable, [])
  else
    let pr := page_range base_page_mask s.addrs
    let outer := hugepage_outer_range huge_page_mask s.addrs
    let inner := hugepage_inner_range huge_page_mask pr
    let start_reserved := decide (outer.1 < pr.1) && env.reserveOk outer.1 pr.1
    let start := if start_reserved then outer.1 else inner.1
    let start_events : List Event :=
      if outer.1 < pr.1 then [.reserve outer.1 pr.1 (env.reserveOk outer.1 pr.1)] else []
    let end_reserved := decide (outer.2 > pr.2) && env.reserveOk pr.2 outer.2
    let stop := if end_reserved then outer.2 else inner.2
    let end_events : List Event :=
      if outer.2 > pr.2 then [.reserve pr.2 outer.2 (env.reserveOk pr.2 outer.2)] else []
    let drop_events : List Event :=
      (if end_reserved then [.munmapRange pr.2 outer.2] else []) ++
        (if start_reserved then [.munmapRange outer.1 pr.1] else [])
    if start ≥ stop then (.error .Conflict, start_events ++ end_events ++ drop_events)
    else
      let copy := (max start pr.1, min stop pr.2)
      let r := replace env (start, stop) copy s.flags
      match r.1 with
      | .ok _ => (.ok (start, stop), start_events ++ end_events ++ r.2)
      | .error e => (.error e, start_events ++ end_events ++ r.2 ++ drop_events)

/-- Type `struct Options` from `lib.rs` (`Default` gives both `false`). -/
structure Options where
  mlock : Bool
  remap : Bool
deriving DecidableEq, Repr

/-- The `log::Level` severities the primer emits. -/
inductive Level where
  | Trace
  | Info
  | Warn
deriving DecidableEq, Repr

/-- Type `struct Output` from `lib.rs`. -/
structure Output where
  log : List (Level × String)
deriving DecidableEq, Repr

/-- The per-`PT_LOAD` body of the loop in `phdr_cb_inner`, folded over the
program headers of one object.  `name` is the object name chosen by the
enclosing `phdr_cb_inner`. -/
def phdr_step (env : Env) (info : PhdrInfo) (name : List Nat)
    (acc : Context × List Event) (p : Phdr) : Context × List Event :=
  if p.p_type ≠ PT_LOAD then acc
  else
    let ctx := acc.1
    let vaddr := (info.dlpi_addr + p.p_vaddr) % 2 ^ 64
    let vend := vaddr + p.p_memsz
    let name_copy_len := min name.length (PATH_MAX - 1)
    let path := name.take name_copy_len ++ List.replicate (PATH_MAX - name_copy_len) 0
    let seg0 : Segment :=
      { object_i := ctx.next_object_i, flags := p.p_flags, addrs := (vaddr, vend),
        remap_result := none, mlock_result := none, path := path }
    let rr : Option (Except HugeError (Nat × Nat)) × List Event :=
      match ctx.huge_page_mask with
      | some hm =>
        let r := Segment.remap env ctx.base_page_mask hm seg0
        (some r.1, r.2)
      | none => (none, [])
    let ml : Option (Except Nat Unit) × List Event :=
      if ctx.mlock then
        match env.mlockErr vaddr vend with
        | some e => (some (.error e), [.mlockCall vaddr vend])
        | none => (some (.ok ()), [.mlockCall vaddr vend])
      else (none, [])
    let seg : Segment := { seg0 with remap_result := rr.1, mlock_result := ml.1 }
    let ctx' :=
      if ctx.segments.length < ctx.capacity then
        { ctx with segments := ctx.segments ++ [seg] }
      else ctx
    (ctx', acc.2 ++ rr.2 ++ ml.2)

/-- Function `unsafe fn phdr_cb_inner` from `linux.rs`: processes one object's
program headers and bumps `next_object_i`. -/
def phdr_cb_inner (env : Env) (info : PhdrInfo) (ctx : Context) : Context × List Event :=
  let name := if ctx.next_object_i = 0 then ctx.program_name else info.dlpi_name
  let r := info.dlpi_phdr.foldl (phdr_step env info name) (ctx, [])
  ({ r.1 with next_object_i := r.1.next_object_i + 1 }, r.2)

/-- Function `fn log_maps` from `linux.rs`. -/
def log_maps (env : Env) (when : String) (log : List (Level × String)) : List (Level × String) :=
  log ++ [(Level.Trace,
    match env.maps when with
    | .ok m => "maps " ++ when ++ ":\n" ++ m
    | .error e => "couldn't read maps: " ++ e)]

/-- The `{:012x}` formatting used for addresses in the info record. -/
def hex12 (n : Nat) : String :=
  let ds := Nat.toDigits 16 n
  String.mk (List.replicate (12 - ds.length) '0' ++ ds)

/-- Model of `CStr::from_bytes_until_nul`: `none` models the `Err` (no NUL) case. -/
def cstr_from_bytes_until_nul (l : List Nat) : Option (List Nat) :=
  if 0 ∈ l then some (l.takeWhile (· ≠ 0)) else none

/-- Impl `Display for HugeError` from `linux.rs` (`env.osError` renders
`Error::from_raw_os_error`). -/
def HugeError.display (env : Env) : HugeError → String
  | .Unreadable => "unreadable"
  | .Conflict => "conflicting mappings within all relevant huge pages"
  | .Writable => "writable"
  | .MemfdCreateFailed e => "memfd_create failed: " ++ env.osError e
  | .FtruncateFailed e => "ftruncate failed: " ++ env.osError e
  | .InitialMmapFailed e => "initial mmap failed: " ++ env.osError e
  | .RemapFailed e => "remap failed: " ++ env.osError e

/-- One `* <start>-<end> <prot> -> ...` line of the info record in `run`. -/
def segment_line (env : Env) (obj : Segment) : String :=
  "* " ++ hex12 obj.addrs.1 ++ "-" ++ hex12 obj.addrs.2 ++ " " ++ debug_prot obj.flags ++ " ->" ++
    (match obj.remap_result with
      | some (.ok r) => " remap=" ++ hex12 r.1 ++ "-" ++ hex12 r.2
      | some (.error e) => " remap=" ++ HugeError.display env e
      | none => "") ++
    (match obj.mlock_result with
      | some (.ok _) => " mlock=success"
      | some (.error e) => " mlock=" ++ env.osError e
      | none => "") ++ "\n"

/-- The info-record building loop of `run`; `none` models the
`expect("path has NUL")` panic. -/
def build_msg (env : Env) (segs : List Segment) : Option String :=
  (segs.foldl
    (fun acc obj =>
      match acc with
      | none => none
      | some (msg, last_object_i) =>
        let withHeader :=
          if some obj.object_i ≠ last_object_i then
            match cstr_from_bytes_until_nul obj.path with
            | some p => some (msg ++ "object " ++ env.lossy p ++ ":\n")
            | none => none
          else some msg
        match withHeader with
        | none => none
        | some m => some (m ++ segment_line env obj, some obj.object_i))
    (some ("primed pages:\n", (none : Option Nat)))).map Prod.fst

/-- Function `pub(crate) fn run` from `linux.rs`: the full driver.  Returns the
`Output` plus the trace of address-space-affecting calls; `none` models a
panic (failing `assert!` in `mask`/`base_page_size`, or a path without NUL). -/
def run (env : Env) (options : Options) : Option (Output × List Event) :=
  let log := log_maps env ("before") []
  match env.numThreads with
  | none =>
    some ({ log := log ++ [(Level.Warn, "Skipping page priming: unable to get thread count!")] }, [])
  | some t =>
    if t ≠ 1 then
      some ({ log := log ++ [(Level.Warn,
        "Skipping page priming: there are " ++ toString t ++ " threads running; must be 1!")] }, [])
    else
      let hp : Option (Option Nat × List (Level × String)) :=
        if options.remap then
          match env.hugePageSize with
          | .ok (some s) => (mask s).map fun m => (some m, log)
          | .ok none =>
            some (none, log ++ [(Level.Warn,
              "Huge page remapping requested but huge pages unavailable.")])
          | .error e =>
            some (none, log ++ [(Level.Warn, "Unable to describe huge page size: " ++ e)])
        else some (none, log)
      match hp with
      | none => none
      | some (huge_page_mask, log) =>
        if huge_page_mask = none ∧ options.mlock = false then
          some ({ log := log ++ [(Level.Warn, "No page priming operations to perform.")] }, [])
        else
          if is_power_of_two env.base_page_size = false then none
          else
            match mask env.base_page_size with
            | none => none
            | some base_page_mask =>
              let ctx0 : Context :=
                { mlock := options.mlock, base_page_mask := base_page_mask,
                  huge_page_mask := huge_page_mask, next_object_i := 0,
                  program_name := env.program_name, segments := [], capacity := 1024 }
              let res := env.phdrInfos.foldl
                (fun acc info =>
                  let r := phdr_cb_inner env info acc.1
                  (r.1, acc.2 ++ r.2))
                (ctx0, [Event.iteratePhdr])
              match build_msg env res.1.segments with
              | none => none
              | some msg =>
                some ({ log := log_maps env ("after") (log ++ [(Level.Info, msg)]) }, res.2)

/-! ### Concrete oracles and segments used by witnesses and counterexamples -/

/-- Oracle where every reservation succeeds and no libc call fails. -/
def envAllOk : Env where
  reserveOk := fun _ _ => true
  memfdErr := fun _ => none
  ftruncateErr := fun _ => none
  initialMmapErr := fun _ => none
  finalMmapErr := fun _ => none
  mlockErr := fun _ _ => none
  maps := fun _ => .ok ""
  numThreads := some 1
  hugePageSize := .ok none
  base_page_size := 4096
  program_name := []
  phdrInfos := []
  osError := fun _ => ""
  lossy := fun _ => ""

/-- Oracle where reserving a range that starts at address 0 fails
(a neighbor occupies the head padding) and everything else succeeds. -/
def envStartBlocked : Env := { envAllOk with reserveOk := fun st _ => st != 0 }

/-- A read-only executable segment on `[0x1000, 0x201000)`. -/
def segRX : Segment :=
  { object_i := 0, flags := 5, addrs := (0x1000, 0x201000),
    remap_result := none, mlock_result := none, path := [] }

/-- A read-only executable segment on `[0x1000, 0x3000)`. -/
def segSmall : Segment :=
  { object_i := 0, flags := 5, addrs := (0x1000, 0x3000),
    remap_result := none, mlock_result := none, path := [] }

/-- A segment without the read bit. -/
def segNoRead : Segment :=
  { object_i := 0, flags := 0, addrs := (0, 0x1000),
    remap_result := none, mlock_result := none, path := [] }

/-- A readable, writable segment. -/
def segWritable : Segment :=
  { object_i := 0, flags := 6, addrs := (0, 0x1000),
    remap_result := none, mlock_result := none, path := [] }

/-- Agreement on the `Context` fields that drive the per-segment work
(everything except the record buffer and its capacity). -/
def ctxAgree (a b : Context) : Prop :=
  a.mlock = b.mlock ∧ a.base_page_mask = b.base_page_mask ∧
    a.huge_page_mask = b.huge_page_mask ∧ a.next_object_i = b.next_object_i ∧
    a.program_name = b.program_name

/-- A full one-record context: one stored segment, capacity one. -/
def ctxFull : Context :=
  { mlock := true, base_page_mask := 2 ^ 12 - 1, huge_page_mask := none,
    next_object_i := 1, program_name := [], segments := [segSmall], capacity := 1 }

/-- An object with a single `PT_LOAD` program header. -/
def infoOne : PhdrInfo :=
  { dlpi_addr := 0, dlpi_name := [],
    dlpi_phdr := [{ p_type := 1, p_flags := 5, p_vaddr := 0x1000, p_memsz := 0x100 }] }

/-- An empty context ready for enumeration (no mlock, no huge pages). -/
def ctxEmpty : Context :=
  { mlock := false, base_page_mask := 2 ^ 12 - 1, huge_page_mask := none,
    next_object_i := 0, program_name := [], segments := [], capacity := 1024 }

/-- The segment `phdr_cb_inner envAllOk infoOne ctxEmpty` stores. -/
def segProduced : Segment :=
  { object_i := 0, flags := 5, addrs := (0x1000, 0x1100),
    remap_result := none, mlock_result := none, path := List.replicate 4096 0 }

/-- The trace message `log_maps` pushes. -/
def maps_msg (env : Env) (when : String) : String :=
  match env.maps when with
  | .ok m => "maps " ++ when ++ ":\n" ++ m
  | .error e => "couldn't read maps: " ++ e

/-- The warning `run` pushes when the thread count is not exactly one. -/
def skip_msg : Option Nat → String
  | some t => "Skipping page priming: there are " ++ toString t ++ " threads running; must be 1!"
  | none => "Skipping page priming: unable to get thread count!"

/-- Map ASCII uppercase to lowercase (for case-insensitive "mentions"). -/
def asciiLower (c : Char) : Char :=
  if 65 ≤ c.toNat ∧ c.toNat ≤ 90 then Char.ofNat (c.toNat + 32) else c

/-- Oracle with two running threads. -/
def envTwoThreads : Env := { envAllOk with numThreads := some 2 }

/-! ### Arithmetic facts about `and_not` and `round_up` on power-of-two masks -/

lemma and_pow_mod (a k : Nat) : a &&& (2 ^ k - 1) = a % 2 ^ k :=
  Nat.and_pow_two_sub_one_eq_mod a k

lemma and_not_eq_sub_mod (a k : Nat) : and_not a (2 ^ k - 1) = a - a % 2 ^ k := by
  simp [and_not, and_pow_mod]

lemma and_not_pow_mod (a k : Nat) : and_not a (2 ^ k - 1) % 2 ^ k = 0 := by
  have hdm := Nat.div_add_mod a (2 ^ k)
  have : and_not a (2 ^ k - 1) = 2 ^ k * (a / 2 ^ k) := by
    rw [and_not_eq_sub_mod]; omega
  rw [this]; exact Nat.mul_mod_right _ _

lemma mod_pow_le_mod_pow (a : Nat) {i j : Nat} (h : i ≤ j) : a % 2 ^ i ≤ a % 2 ^ j := by
  have hd : 2 ^ i ∣ 2 ^ j := pow_dvd_pow 2 h
  calc a % 2 ^ i = (a % 2 ^ j) % 2 ^ i := (Nat.mod_mod_of_dvd a hd).symm
    _ ≤ a % 2 ^ j := Nat.mod_le _ _

lemma mod_pow_zero_of_le {b i j : Nat} (hij : i ≤ j) (h : b % 2 ^ j = 0) : b % 2 ^ i = 0 := by
  have hd : 2 ^ i ∣ 2 ^ j := pow_dvd_pow 2 hij
  calc b % 2 ^ i = (b % 2 ^ j) % 2 ^ i := (Nat.mod_mod_of_dvd b hd).symm
    _ = 0 := by rw [h]; exact Nat.zero_mod _

lemma and_not_anti (a : Nat) {i j : Nat} (h : i ≤ j) :
    and_not a (2 ^ j - 1) ≤ and_not a (2 ^ i - 1) := by
  rw [and_not_eq_sub_mod, and_not_eq_sub_mod]
  have := mod_pow_le_mod_pow a h
  omega

lemma and_not_eq_of_mod {a k : Nat} (h : a % 2 ^ k = 0) : and_not a (2 ^ k - 1) = a := by
  rw [and_not_eq_sub_mod, h, Nat.sub_zero]

lemma round_up_eq_of_mod {a k : Nat} (h : a % 2 ^ k = 0) : round_up a (2 ^ k - 1) = a := by
  rw [round_up, and_pow_mod, h]
  simp

lemma round_up_eq_of_mod_ne {a k : Nat} (h : a % 2 ^ k ≠ 0) :
    round_up a (2 ^ k - 1) = a - a % 2 ^ k + 2 ^ k := by
  rw [round_up, and_pow_mod, and_not_eq_sub_mod]
  have h2 : 0 < 2 ^ k := Nat.pos_pow_of_pos k (by norm_num)
  simp [h]
  omega

lemma round_up_pow_mod (a k : Nat) : round_up a (2 ^ k - 1) % 2 ^ k = 0 := by
  by_cases h : a % 2 ^ k = 0
  · rw [round_up_eq_of_mod h]; exact h
  · rw [round_up_eq_of_mod_ne h]
    have hdm := Nat.div_add_mod a (2 ^ k)
    have : a - a % 2 ^ k + 2 ^ k = 2 ^ k * (a / 2 ^ k + 1) := by
      rw [Nat.mul_add, Nat.mul_one]; omega
    rw [this]; exact Nat.mul_mod_right _ _

lemma le_round_up (a k : Nat) : a ≤ round_up a (2 ^ k - 1) := by
  by_cases h : a % 2 ^ k = 0
  · rw [round_up_eq_of_mod h]
  · rw [round_up_eq_of_mod_ne h]
    have h2 : 0 < 2 ^ k := Nat.pos_pow_of_pos k (by norm_num)
    have := Nat.mod_lt a h2
    omega

lemma lt_round_up_of_mod_ne {a k : Nat} (h : a % 2 ^ k ≠ 0) : a < round_up a (2 ^ k - 1) := by
  rw [round_up_eq_of_mod_ne h]
  have h2 : 0 < 2 ^ k := Nat.pos_pow_of_pos k (by norm_num)
  have := Nat.mod_lt a h2
  omega

lemma round_up_min {a b k : Nat} (hab : a ≤ b) (hb : b % 2 ^ k = 0) :
    round_up a (2 ^ k - 1) ≤ b := by
  by_cases h : a % 2 ^ k = 0
  · rw [round_up_eq_of_mod h]; exact hab
  · rw [round_up_eq_of_mod_ne h]
    have h2 : 0 < 2 ^ k := Nat.pos_pow_of_pos k (by norm_num)
    have hda := Nat.div_add_mod a (2 ^ k)
    have hdb := Nat.div_add_mod b (2 ^ k)
    have hma := Nat.mod_lt a h2
    have hq : 2 ^ k * (a / 2 ^ k) < 2 ^ k * (b / 2 ^ k) := by omega
    have hq2 : a / 2 ^ k < b / 2 ^ k := Nat.lt_of_mul_lt_mul_left hq
    have hq3 : 2 ^ k * (a / 2 ^ k + 1) ≤ 2 ^ k * (b / 2 ^ k) :=
      Nat.mul_le_mul_left _ hq2
    have : 2 ^ k * (a / 2 ^ k + 1) = 2 ^ k * (a / 2 ^ k) + 2 ^ k := by ring
    omega

lemma round_up_mono_exp (a : Nat) {i j : Nat} (h : i ≤ j) :
    round_up a (2 ^ i - 1) ≤ round_up a (2 ^ j - 1) :=
  round_up_min (le_round_up a j) (mod_pow_zero_of_le h (round_up_pow_mod a j))

lemma replace_ok_events {env : Env} {m c : Nat × Nat} {flags : Nat} {u : Unit}
    (h : (replace env m c flags).1 = .ok u) :
    (replace env m c flags).2 =
      [.memfdCreate, .ftruncateCall, .mmapTmp, .memcpyCall c.1 c.2, .munmapTmp,
        .mmapFixed m.1 m.2 (transform_prot flags), .closeFd] := by
  simp only [replace] at h ⊢
  cases h1 : env.memfdErr m <;> simp only [h1] at h ⊢
  · cases h2 : env.ftruncateErr m <;> simp only [h2] at h ⊢
    · cases h3 : env.initialMmapErr m <;> simp only [h3] at h ⊢
      · cases h4 : env.finalMmapErr m <;> simp only [h4] at h ⊢
      · simp at h
    · simp at h
  · simp at h

lemma remap_ok_inv {env : Env} {bm hm : Nat} {s : Segment} {st en : Nat} {tr : List Event}
    (h : Segment.remap env bm hm s = (.ok (st, en), tr)) :
    s.flags &&& PF_R ≠ 0 ∧ s.flags &&& PF_W = 0 ∧
    st = (if (hugepage_outer_range hm s.addrs).1 < (page_range bm s.addrs).1 ∧
            env.reserveOk (hugepage_outer_range hm s.addrs).1 (page_range bm s.addrs).1 = true
          then (hugepage_outer_range hm s.addrs).1
          else (hugepage_inner_range hm (page_range bm s.addrs)).1) ∧
    en = (if (page_range bm s.addrs).2 < (hugepage_outer_range hm s.addrs).2 ∧
            env.reserveOk (page_range bm s.addrs).2 (hugepage_outer_range hm s.addrs).2 = true
          then (hugepage_outer_range hm s.addrs).2
          else (hugepage_inner_range hm (page_range bm s.addrs)).2) ∧
    st < en ∧
    Event.memcpyCall (max st (page_range bm s.addrs).1) (min en (page_range bm s.addrs).2) ∈ tr := by
  simp only [Segment.remap, Bool.and_eq_true, decide_eq_true_eq, gt_iff_lt, ge_iff_le] at h
  split at h
  · simp at h
  rename_i hR
  split at h
  · simp at h
  rename_i hW
  split at h <;> rename_i hS
  · split at h <;> rename_i hE
    · split at h <;> rename_i hC
      · simp at h
      · split at h <;> rename_i hu hrep
        · simp only [Prod.mk.injEq, Except.ok.injEq] at h
          obtain ⟨⟨hst, hen⟩, htr⟩ := h
          subst hst; subst hen; subst htr
          refine ⟨hR, not_not.mp hW, by simp [hS, hE], by simp [hS, hE], by omega, ?_⟩
          rw [replace_ok_events hrep]
          simp
        · simp at h
    · split at h <;> rename_i hC
      · simp at h
      · split at h <;> rename_i hu hrep
        · simp only [Prod.mk.injEq, Except.ok.injEq] at h
          obtain ⟨⟨hst, hen⟩, htr⟩ := h
          subst hst; subst hen; subst htr
          refine ⟨hR, not_not.mp hW, by simp [hS, hE], by simp [hS, hE], by omega, ?_⟩
          rw [replace_ok_events hrep]
          simp
        · simp at h
  · split at h <;> rename_i hE
    · split at h <;> rename_i hC
      · simp at h
      · split at h <;> rename_i hu hrep
        · simp only [Prod.mk.injEq, Except.ok.injEq] at h
          obtain ⟨⟨hst, hen⟩, htr⟩ := h
          subst hst; subst hen; subst htr
          refine ⟨hR, not_not.mp hW, by simp [hS, hE], by simp [hS, hE], by omega, ?_⟩
          rw [replace_ok_events hrep]
          simp
        · simp at h
    · split at h <;> rename_i hC
      · simp at h
      · split at h <;> rename_i hu hrep
        · simp only [Prod.mk.injEq, Except.ok.injEq] at h
          obtain ⟨⟨hst, hen⟩, htr⟩ := h
          subst hst; subst hen; subst htr
          refine ⟨hR, not_not.mp hW, by simp [hS, hE], by simp [hS, hE], by omega, ?_⟩
          rw [replace_ok_events hrep]
          simp
        · simp at h

lemma inner_start_eq {a1 : Nat} {i j : Nat} (hij : i ≤ j)
    (h : ¬ and_not a1 (2 ^ j - 1) < and_not a1 (2 ^ i - 1)) :
    round_up (and_not a1 (2 ^ i - 1)) (2 ^ j - 1) = and_not a1 (2 ^ j - 1) := by
  have hle := and_not_anti a1 hij
  have heq : and_not a1 (2 ^ j - 1) = and_not a1 (2 ^ i - 1) := by omega
  have hmod : and_not a1 (2 ^ i - 1) % 2 ^ j = 0 := by rw [← heq]; exact and_not_pow_mod a1 j
  rw [round_up_eq_of_mod hmod, heq]

lemma inner_end_eq {a2 : Nat} {i j : Nat} (hij : i ≤ j)
    (h : ¬ round_up a2 (2 ^ i - 1) < round_up a2 (2 ^ j - 1)) :
    and_not (round_up a2 (2 ^ i - 1)) (2 ^ j - 1) = round_up a2 (2 ^ j - 1) := by
  have hle := round_up_mono_exp a2 hij
  have heq : round_up a2 (2 ^ i - 1) = round_up a2 (2 ^ j - 1) := by omega
  have hmod : round_up a2 (2 ^ i - 1) % 2 ^ j = 0 := by rw [heq]; exact round_up_pow_mod a2 j
  rw [and_not_eq_of_mod hmod, heq]

/-! ### Claim theorems -/

/-- C1: for a readable, non-writable segment and base/huge masks `2^i-1`,
`2^j-1` with `i ≤ j`, whenever `Segment::remap` succeeds, each side of the
planned range follows the padding rule: a non-empty start padding
`[H.start, P.start)` whose reservation succeeds gives planned start `H.start`,
a failed reservation gives `I.start`, and symmetrically for the end; if every
attempted reservation succeeds the planned range is exactly the huge-page
closure `H`, and the bytes copied are `[max(start, P.start), min(end, P.end))`. -/
theorem remap_padding_rule (env : Env) (s : Segment) (i j : Nat) (hij : i ≤ j)
    (st en : Nat) (tr : List Event)
    (h : Segment.remap env (2 ^ i - 1) (2 ^ j - 1) s = (.ok (st, en), tr)) :
    (and_not s.addrs.1 (2 ^ j - 1) < and_not s.addrs.1 (2 ^ i - 1) →
      (env.reserveOk (and_not s.addrs.1 (2 ^ j - 1)) (and_not s.addrs.1 (2 ^ i - 1)) = true →
        st = and_not s.addrs.1 (2 ^ j - 1)) ∧
      (env.reserveOk (and_not s.addrs.1 (2 ^ j - 1)) (and_not s.addrs.1 (2 ^ i - 1)) = false →
        st = round_up (and_not s.addrs.1 (2 ^ i - 1)) (2 ^ j - 1))) ∧
    (round_up s.addrs.2 (2 ^ i - 1) < round_up s.addrs.2 (2 ^ j - 1) →
      (env.reserveOk (round_up s.addrs.2 (2 ^ i - 1)) (round_up s.addrs.2 (2 ^ j - 1)) = true →
        en = round_up s.addrs.2 (2 ^ j - 1)) ∧
      (env.reserveOk (round_up s.addrs.2 (2 ^ i - 1)) (round_up s.addrs.2 (2 ^ j - 1)) = false →
        en = and_not (round_up s.addrs.2 (2 ^ i - 1)) (2 ^ j - 1))) ∧
    ((and_not s.addrs.1 (2 ^ j - 1) < and_not s.addrs.1 (2 ^ i - 1) →
        env.reserveOk (and_not s.addrs.1 (2 ^ j - 1)) (and_not s.addrs.1 (2 ^ i - 1)) = true) →
      (round_up s.addrs.2 (2 ^ i - 1) < round_up s.addrs.2 (2 ^ j - 1) →
        env.reserveOk (round_up s.addrs.2 (2 ^ i - 1)) (round_up s.addrs.2 (2 ^ j - 1)) = true) →
      st = and_not s.addrs.1 (2 ^ j - 1) ∧ en = round_up s.addrs.2 (2 ^ j - 1)) ∧
    Event.memcpyCall (max st (and_not s.addrs.1 (2 ^ i - 1)))
      (min en (round_up s.addrs.2 (2 ^ i - 1))) ∈ tr := by
  obtain ⟨hR, hW, hst, hen, hlt, hmem⟩ := remap_ok_inv h
  simp only [page_range, hugepage_outer_range, hugepage_inner_range] at hst hen hmem
  refine ⟨?_, ?_, ?_, hmem⟩
  · intro hA
    constructor <;> intro hok
    · rw [hst, if_pos ⟨hA, hok⟩]
    · rw [hst, if_neg (by simp [hok])]
  · intro hA
    constructor <;> intro hok
    · rw [hen, if_pos ⟨hA, hok⟩]
    · rw [hen, if_neg (by simp [hok])]
  · intro hS hE
    constructor
    · by_cases hA : and_not s.addrs.1 (2 ^ j - 1) < and_not s.addrs.1 (2 ^ i - 1)
      · rw [hst, if_pos ⟨hA, hS hA⟩]
      · rw [hst, if_neg (fun hc => hA hc.1)]
        exact inner_start_eq hij hA
    · by_cases hA : round_up s.addrs.2 (2 ^ i - 1) < round_up s.addrs.2 (2 ^ j - 1)
      · rw [hen, if_pos ⟨hA, hE hA⟩]
      · rw [hen, if_neg (fun hc => hA hc.1)]
        exact inner_end_eq hij hA

/-- Witness for C1: a concrete successful remap where both paddings are
non-empty, both reservations succeed, and the copy covers
`[P.start, P.end) = [0x1000, 0x3000)`. -/
theorem remap_padding_rule_witness :
    Event.memcpyCall (max 0 (and_not 0x1000 (2 ^ 12 - 1)))
      (min 0x200000 (round_up 0x3000 (2 ^ 12 - 1))) ∈
      (Segment.remap envAllOk (2 ^ 12 - 1) (2 ^ 21 - 1) segSmall).2 :=
  (remap_padding_rule envAllOk segSmall 12 21 (by decide) 0 0x200000
    (Segment.remap envAllOk (2 ^ 12 - 1) (2 ^ 21 - 1) segSmall).2 (by decide)).2.2.2

/-- C2 counterexample: with the head padding blocked, `Segment::remap` on
`segRX` succeeds with range `[0x200000, 0x400000)`, which does not cover the
base-page-aligned page range `[0x1000, 0x201000)` of the segment. -/
theorem remap_cover_cex :
    (Segment.remap envStartBlocked (2 ^ 12 - 1) (2 ^ 21 - 1) segRX).1 =
      .ok (0x200000, 0x400000) ∧
    ¬ 0x200000 ≤ (page_range (2 ^ 12 - 1) segRX.addrs).1 := by
  constructor
  · decide
  · decide

/-- C2 (amended): a successful `Segment::remap` range is huge-page aligned on
both ends, and it fully covers the segment's base-page-aligned page range
whenever every attempted padding reservation succeeded (in particular when
both reservations succeed); a failed reservation instead shrinks that side
inward, so coverage of that side is not guaranteed. -/
theorem remap_ok_aligned_covers (env : Env) (s : Segment) (i j : Nat) (hij : i ≤ j)
    (st en : Nat) (tr : List Event)
    (h : Segment.remap env (2 ^ i - 1) (2 ^ j - 1) s = (.ok (st, en), tr)) :
    st % 2 ^ j = 0 ∧ en % 2 ^ j = 0 ∧
    (((hugepage_outer_range (2 ^ j - 1) s.addrs).1 < (page_range (2 ^ i - 1) s.addrs).1 →
        env.reserveOk (hugepage_outer_range (2 ^ j - 1) s.addrs).1
          (page_range (2 ^ i - 1) s.addrs).1 = true) →
      ((page_range (2 ^ i - 1) s.addrs).2 < (hugepage_outer_range (2 ^ j - 1) s.addrs).2 →
        env.reserveOk (page_range (2 ^ i - 1) s.addrs).2
          (hugepage_outer_range (2 ^ j - 1) s.addrs).2 = true) →
      st ≤ (s.addrs.1 - (s.addrs.1 &&& (2 ^ i - 1))) ∧
      round_up s.addrs.2 (2 ^ i - 1) ≤ en) := by
  obtain ⟨hR, hW, hst, hen, hlt, hmem⟩ := remap_ok_inv h
  simp only [page_range, hugepage_outer_range, hugepage_inner_range] at hst hen ⊢
  refine ⟨?_, ?_, ?_⟩
  · rw [hst]
    split
    · exact and_not_pow_mod s.addrs.1 j
    · exact round_up_pow_mod (and_not s.addrs.1 (2 ^ i - 1)) j
  · rw [hen]
    split
    · exact round_up_pow_mod s.addrs.2 j
    · exact and_not_pow_mod (round_up s.addrs.2 (2 ^ i - 1)) j
  · intro hS hE
    constructor
    · show st ≤ and_not s.addrs.1 (2 ^ i - 1)
      by_cases hA : and_not s.addrs.1 (2 ^ j - 1) < and_not s.addrs.1 (2 ^ i - 1)
      · rw [hst, if_pos ⟨hA, hS hA⟩]
        exact Nat.le_of_lt hA
      · rw [hst, if_neg (fun hc => hA hc.1), inner_start_eq hij hA]
        have := and_not_anti s.addrs.1 hij
        omega
    · by_cases hA : round_up s.addrs.2 (2 ^ i - 1) < round_up s.addrs.2 (2 ^ j - 1)
      · rw [hen, if_pos ⟨hA, hE hA⟩]
        exact Nat.le_of_lt hA
      · rw [hen, if_neg (fun hc => hA hc.1), inner_end_eq hij hA]
        exact round_up_mono_exp s.addrs.2 hij

/-- Witness for C2 (amended): the fully successful remap of `segSmall` gives
the aligned range `[0, 0x200000)` covering `[0x1000, 0x3000)`. -/
theorem remap_ok_aligned_covers_witness :
    (0 : Nat) % 2 ^ 21 = 0 ∧ (0x200000 : Nat) % 2 ^ 21 = 0 ∧
    (((hugepage_outer_range (2 ^ 21 - 1) segSmall.addrs).1 <
        (page_range (2 ^ 12 - 1) segSmall.addrs).1 →
        envAllOk.reserveOk (hugepage_outer_range (2 ^ 21 - 1) segSmall.addrs).1
          (page_range (2 ^ 12 - 1) segSmall.addrs).1 = true) →
      ((page_range (2 ^ 12 - 1) segSmall.addrs).2 <
        (hugepage_outer_range (2 ^ 21 - 1) segSmall.addrs).2 →
        envAllOk.reserveOk (page_range (2 ^ 12 - 1) segSmall.addrs).2
          (hugepage_outer_range (2 ^ 21 - 1) segSmall.addrs).2 = true) →
      (0 : Nat) ≤ (segSmall.addrs.1 - (segSmall.addrs.1 &&& (2 ^ 12 - 1))) ∧
      round_up segSmall.addrs.2 (2 ^ 12 - 1) ≤ 0x200000) :=
  remap_ok_aligned_covers envAllOk segSmall 12 21 (by decide) 0 0x200000
    (Segment.remap envAllOk (2 ^ 12 - 1) (2 ^ 21 - 1) segSmall).2 (by decide)

/-- C3: a segment without the read bit is refused as `Unreadable`, and a
readable segment with the write bit is refused as `Writable`; in both cases
the trace is empty, i.e. no mmap, memfd_create or reservation call is made. -/
theorem remap_refuses (env : Env) (bm hm : Nat) (s : Segment) :
    (s.flags &&& PF_R = 0 → Segment.remap env bm hm s = (.error .Unreadable, [])) ∧
    (s.flags &&& PF_R ≠ 0 → s.flags &&& PF_W ≠ 0 →
      Segment.remap env bm hm s = (.error .Writable, [])) := by
  constructor
  · intro h
    simp [Segment.remap, h]
  · intro h1 h2
    simp [Segment.remap, h1, h2]

/-- Witness for C3 at the concrete segments `segNoRead` and `segWritable`. -/
theorem remap_refuses_witness :
    Segment.remap envAllOk (2 ^ 12 - 1) (2 ^ 21 - 1) segNoRead = (.error .Unreadable, []) ∧
    Segment.remap envAllOk (2 ^ 12 - 1) (2 ^ 21 - 1) segWritable = (.error .Writable, []) :=
  ⟨(remap_refuses envAllOk (2 ^ 12 - 1) (2 ^ 21 - 1) segNoRead).1 (by decide),
    (remap_refuses envAllOk (2 ^ 12 - 1) (2 ^ 21 - 1) segWritable).2 (by decide) (by decide)⟩

/-- C6: the claim says the assertion in `mask` rejects every non-power of two
and also 1; but the source asserts `is_power_of_two || page_size > 1`, which
accepts 3 (not a power of two) and 1, rejecting only 0. -/
theorem mask_assert_bug : mask 3 = some 2 ∧ mask 1 = some 0 ∧ mask 0 = none := by decide

/-- C7: `round_up` with a mask `2^k - 1` is the identity on aligned addresses
and otherwise the least aligned address strictly above; in particular
`round_up 0x1000 0xFFF = 0x1000` and `round_up 0x1001 0xFFF = 0x2000`. -/
theorem round_up_spec (k a : Nat) :
    (a &&& (2 ^ k - 1) = 0 → round_up a (2 ^ k - 1) = a) ∧
    (a &&& (2 ^ k - 1) ≠ 0 →
      a < round_up a (2 ^ k - 1) ∧ round_up a (2 ^ k - 1) &&& (2 ^ k - 1) = 0 ∧
      ∀ b, a < b → b &&& (2 ^ k - 1) = 0 → round_up a (2 ^ k - 1) ≤ b) ∧
    round_up 0x1000 0xFFF = 0x1000 ∧ round_up 0x1001 0xFFF = 0x2000 := by
  refine ⟨?_, ?_, by decide, by decide⟩
  · intro h
    exact round_up_eq_of_mod (by rwa [and_pow_mod] at h)
  · intro h
    rw [and_pow_mod] at h
    refine ⟨lt_round_up_of_mod_ne h, ?_, ?_⟩
    · rw [and_pow_mod]
      exact round_up_pow_mod a k
    · intro b hab hb
      rw [and_pow_mod] at hb
      exact round_up_min (Nat.le_of_lt hab) hb

/-- Witness for C7 at `k = 12`, `a = 0x1001` and `a = 0x1000`. -/
theorem round_up_spec_witness :
    (0x1000 &&& (2 ^ 12 - 1) = 0 → round_up 0x1000 (2 ^ 12 - 1) = 0x1000) ∧
    (0x1001 : Nat) < round_up 0x1001 (2 ^ 12 - 1) :=
  ⟨(round_up_spec 12 0x1000).1, ((round_up_spec 12 0x1001).2.1 (by decide)).1⟩

/-- C8: the claim (and the spec's own design note) requires the triad to
reflect `PF_R`/`PF_W`/`PF_X` independently; the source tests `PF_R` three
times, so flags `PF_R` alone render `"rwx"` (expected `"r--"`) and flags
`PF_X` alone render `"---"` (expected `"--x"`). -/
theorem debug_prot_bug : debug_prot 4 = "rwx" ∧ debug_prot 1 = "---" := by decide

lemma phdr_step_agree (env : Env) (info : PhdrInfo) (name : List Nat)
    {a b : Context × List Event} (hag : ctxAgree a.1 b.1) (he : a.2 = b.2) (p : Phdr) :
    (phdr_step env info name a p).2 = (phdr_step env info name b p).2 ∧
    ctxAgree (phdr_step env info name a p).1 (phdr_step env info name b p).1 := by
  obtain ⟨h1, h2, h3, h4, h5⟩ := hag
  by_cases hp : p.p_type = PT_LOAD
  · constructor
    · simp [phdr_step, hp, h1, h2, h3, h4, h5, he]
    · simp only [phdr_step, hp, ne_eq, not_true_eq_false, if_false, h1, h2, h3, h4, h5]
      by_cases ca : a.1.segments.length < a.1.capacity <;>
        by_cases cb : b.1.segments.length < b.1.capacity <;>
          simp [ctxAgree, ca, cb, h1, h2, h3, h4, h5]
  · have hp' : (p.p_type ≠ PT_LOAD) := hp
    simp only [phdr_step, if_pos hp']
    exact ⟨he, h1, h2, h3, h4, h5⟩

lemma foldl_phdr_step_agree (env : Env) (info : PhdrInfo) (name : List Nat) (l : List Phdr) :
    ∀ (a b : Context × List Event), ctxAgree a.1 b.1 → a.2 = b.2 →
      (l.foldl (phdr_step env info name) a).2 = (l.foldl (phdr_step env info name) b).2 ∧
      ctxAgree (l.foldl (phdr_step env info name) a).1
        (l.foldl (phdr_step env info name) b).1 := by
  induction l with
  | nil => intro a b hag he; exact ⟨he, hag⟩
  | cons p t ih =>
    intro a b hag he
    simp only [List.foldl_cons]
    obtain ⟨he', hag'⟩ := phdr_step_agree env info name hag he p
    exact ih _ _ hag' he'

lemma phdr_step_full (env : Env) (info : PhdrInfo) (name : List Nat)
    {a : Context × List Event} (p : Phdr) (h : a.1.capacity ≤ a.1.segments.length) :
    (phdr_step env info name a p).1 = a.1 := by
  by_cases hp : p.p_type = PT_LOAD
  · have hfull : ¬ a.1.segments.length < a.1.capacity := by omega
    simp [phdr_step, hp, hfull]
  · have hp' : (p.p_type ≠ PT_LOAD) := hp
    simp only [phdr_step, if_pos hp']

lemma foldl_phdr_step_full (env : Env) (info : PhdrInfo) (name : List Nat) (l : List Phdr) :
    ∀ (a : Context × List Event), a.1.capacity ≤ a.1.segments.length →
      (l.foldl (phdr_step env info name) a).1 = a.1 := by
  induction l with
  | nil => intro a h; rfl
  | cons p t ih =>
    intro a h
    rw [List.foldl_cons]
    have hs := phdr_step_full env info name p h
    have hstep : phdr_step env info name a p =
        ((phdr_step env info name a p).1, (phdr_step env info name a p).2) := rfl
    rw [hstep, hs]
    have := ih ((a.1, (phdr_step env info name a p).2)) (by simpa using h)
    simpa using this

/-- C9: once the segment buffer is full (`run` sizes it to 1024), a further
`PT_LOAD` segment is still remapped and mlocked exactly as if the buffer had
room — the trace is the same as for an empty buffer — and only its `Segment`
record is dropped. -/
theorem phdr_cb_capacity (env : Env) (info : PhdrInfo) (ctx : Context)
    (h : ctx.capacity ≤ ctx.segments.length) :
    (phdr_cb_inner env info ctx).1.segments = ctx.segments ∧
    (phdr_cb_inner env info ctx).2 =
      (phdr_cb_inner env info { ctx with segments := [] }).2 := by
  constructor
  · simp only [phdr_cb_inner]
    rw [foldl_phdr_step_full env info
      (if ctx.next_object_i = 0 then ctx.program_name else info.dlpi_name)
      info.dlpi_phdr (ctx, []) h]
  · simp only [phdr_cb_inner]
    exact (foldl_phdr_step_agree env info
      (if ctx.next_object_i = 0 then ctx.program_name else info.dlpi_name)
      info.dlpi_phdr (ctx, []) ({ ctx with segments := [] }, [])
      ⟨rfl, rfl, rfl, rfl, rfl⟩ rfl).1

/-- Witness for C9 at a concrete full context. -/
theorem phdr_cb_capacity_witness :
    (phdr_cb_inner envAllOk infoOne ctxFull).1.segments = ctxFull.segments ∧
    (phdr_cb_inner envAllOk infoOne ctxFull).2 =
      (phdr_cb_inner envAllOk infoOne { ctxFull with segments := [] }).2 :=
  phdr_cb_capacity envAllOk infoOne ctxFull (by decide)

lemma mk_path_len_last (name : List Nat) :
    (name.take (min name.length (PATH_MAX - 1)) ++
      List.replicate (PATH_MAX - min name.length (PATH_MAX - 1)) 0).length = PATH_MAX ∧
    (name.take (min name.length (PATH_MAX - 1)) ++
      List.replicate (PATH_MAX - min name.length (PATH_MAX - 1)) 0).getLast? = some 0 := by
  have hk : min name.length (PATH_MAX - 1) ≤ PATH_MAX - 1 := Nat.min_le_right _ _
  have hk' : min name.length (PATH_MAX - 1) ≤ name.length := Nat.min_le_left _ _
  have hlen : (name.take (min name.length (PATH_MAX - 1))).length =
      min name.length (PATH_MAX - 1) := by
    rw [List.length_take]
    omega
  constructor
  · rw [List.length_append, hlen, List.length_replicate]
    have : (0 : Nat) < PATH_MAX := by decide
    omega
  · have hne : PATH_MAX - min name.length (PATH_MAX - 1) ≠ 0 := by
      have : (1 : Nat) ≤ PATH_MAX - (PATH_MAX - 1) := by decide
      omega
    obtain ⟨m, hm⟩ := Nat.exists_eq_succ_of_ne_zero hne
    rw [hm, List.replicate_succ', ← List.append_assoc, List.getLast?_concat]

lemma phdr_step_path (env : Env) (info : PhdrInfo) (name : List Nat)
    {a : Context × List Event} (p : Phdr)
    (h : ∀ s ∈ a.1.segments, s.path.length = PATH_MAX ∧ s.path.getLast? = some 0) :
    ∀ s ∈ (phdr_step env info name a p).1.segments,
      s.path.length = PATH_MAX ∧ s.path.getLast? = some 0 := by
  by_cases hp : p.p_type = PT_LOAD
  · simp only [phdr_step, hp, ne_eq, not_true_eq_false, if_false]
    by_cases hc : a.1.segments.length < a.1.capacity
    · rw [if_pos hc]
      intro s hs
      rcases List.mem_append.mp hs with h1 | h2
      · exact h s h1
      · have hs' : s.path = name.take (min name.length (PATH_MAX - 1)) ++
            List.replicate (PATH_MAX - min name.length (PATH_MAX - 1)) 0 := by
          rw [List.mem_singleton.mp h2]
        rw [hs']
        exact mk_path_len_last name
    · rw [if_neg hc]
      exact h
  · have hp' : (p.p_type ≠ PT_LOAD) := hp
    simp only [phdr_step, if_pos hp']
    exact h

lemma foldl_phdr_step_path (env : Env) (info : PhdrInfo) (name : List Nat) (l : List Phdr) :
    ∀ (a : Context × List Event),
      (∀ s ∈ a.1.segments, s.path.length = PATH_MAX ∧ s.path.getLast? = some 0) →
      ∀ s ∈ (l.foldl (phdr_step env info name) a).1.segments,
        s.path.length = PATH_MAX ∧ s.path.getLast? = some 0 := by
  induction l with
  | nil => intro a h; exact h
  | cons p t ih =>
    intro a h
    rw [List.foldl_cons]
    exact ih _ (phdr_step_path env info name p h)

/-- C10: every segment stored by `phdr_cb_inner` has a `PATH_MAX`-byte path
whose final byte is 0 (at most `PATH_MAX - 1` name bytes are copied into the
zero-initialized array), so the stored path is always NUL-terminated. -/
theorem phdr_path_nul (env : Env) (info : PhdrInfo) (ctx : Context)
    (h : ∀ s ∈ ctx.segments, s.path.length = PATH_MAX ∧ s.path.getLast? = some 0) :
    ∀ s ∈ (phdr_cb_inner env info ctx).1.segments,
      s.path.length = PATH_MAX ∧ s.path.getLast? = some 0 := by
  simp only [phdr_cb_inner]
  exact foldl_phdr_step_path env info
    (if ctx.next_object_i = 0 then ctx.program_name else info.dlpi_name)
    info.dlpi_phdr (ctx, []) h

/-- Witness for C10 at the concrete stored segment. -/
theorem phdr_path_nul_witness :
    segProduced.path.length = PATH_MAX ∧ segProduced.path.getLast? = some 0 :=
  phdr_path_nul envAllOk infoOne ctxEmpty (by simp [ctxEmpty]) segProduced
    (by
      have hsegs : (phdr_cb_inner envAllOk infoOne ctxEmpty).1.segments = [segProduced] := rfl
      rw [hsegs]
      exact List.mem_singleton.mpr rfl)

/-- C4: if the thread count is not exactly 1 or cannot be determined, `run`
pushes one warning (naming the count when known) after the trace snapshot and
returns at once with an empty trace: no segment enumeration and no mapping
created, locked or replaced. -/
theorem run_thread_guard (env : Env) (opts : Options) (h : env.numThreads ≠ some 1) :
    run env opts =
      some ({ log := [(Level.Trace, maps_msg env ("before")),
                      (Level.Warn, skip_msg env.numThreads)] }, []) ∧
    ∀ t, env.numThreads = some t →
      ∃ pre post, skip_msg env.numThreads = pre ++ toString t ++ post := by
  constructor
  · cases hn : env.numThreads with
    | none => simp [run, log_maps, maps_msg, skip_msg, hn]
    | some t =>
      have ht : t ≠ 1 := fun hh => h (hh ▸ hn)
      simp [run, log_maps, maps_msg, skip_msg, hn, ht]
  · intro t ht
    rw [ht]
    exact ⟨"Skipping page priming: there are ", " threads running; must be 1!", rfl⟩

/-- Witness for C4: two threads, both operations requested. -/
theorem run_thread_guard_witness :
    run envTwoThreads { mlock := true, remap := true } =
      some ({ log := [(Level.Trace, maps_msg envTwoThreads ("before")),
                      (Level.Warn, skip_msg envTwoThreads.numThreads)] }, []) :=
  (run_thread_guard envTwoThreads { mlock := true, remap := true } (by decide)).1

/-- C5: single-threaded `run` with default options (both toggles off) yields
exactly the trace snapshot plus one warning record — the only warning-severity
record — whose text mentions (case-insensitively) "no page priming
operations", and an empty trace: no enumeration and no mapping change. -/
theorem run_default_noop (env : Env) (h : env.numThreads = some 1) :
    run env { mlock := false, remap := false } =
      some ({ log := [(Level.Trace, maps_msg env ("before")),
                      (Level.Warn, "No page priming operations to perform.")] }, []) ∧
    ([(Level.Trace, maps_msg env ("before")),
      (Level.Warn, "No page priming operations to perform.")].filter
        (fun r => r.1 == Level.Warn)) =
      [(Level.Warn, "No page priming operations to perform.")] ∧
    ("no page priming operations".data.map asciiLower) <:+:
      ("No page priming operations to perform.".data.map asciiLower) := by
  refine ⟨?_, ?_, ?_⟩
  · simp [run, log_maps, maps_msg, h]
  · rfl
  · decide

/-- Witness for C5 at `envAllOk` (exactly one thread). -/
theorem run_default_noop_witness :
    run envAllOk { mlock := false, remap := false } =
      some ({ log := [(Level.Trace, maps_msg envAllOk ("before")),
                      (Level.Warn, "No page priming operations to perform.")] }, []) :=
  (run_default_noop envAllOk rfl).1

end PagePrimer
